import Mathlib

/-!
Verification of the email_lib repository (Python 2): a shallow embedding of
the composition and delivery core in `lib.py` and `constants.py`, together
with theorems settling the specification's claims about it.

Conventions of the embedding:
* Python unicode strings whose individual code points matter (encodability,
  body text, file bytes) are `List Nat` of code points; strings manipulated
  only as whole values are Lean `String`s.
* External boundaries (the filesystem, the MIME-type guesser, the SMTP
  transport, the clock) are parameters of the functions that consult them.
* Exceptions are `Except` results or explicit outcome inductives; an
  uncaught exception is a distinguished result value.
-/

namespace EmailLib

/-! ## constants.py -/

/-- constants.py line 9. -/
def ASCII : String := "us-ascii"

/-- constants.py line 10. -/
def ISO : String := "iso-8859-1"

/-- constants.py line 11. -/
def UTF : String := "utf8"

/-- constants.py line 13: the candidate encodings, in preference order. -/
def ENCODINGS : List String := [ASCII, ISO, UTF]

/-- constants.py line 17. -/
def MIME_TYPE_TEXT : String := "text/plain"

/-- constants.py line 18. -/
def MIME_TYPE_PNG_IMAGE : String := "image/png"

/-! ## Python 2 string primitives used by lib.py

`str.lower()` in Python 2 lowercases the ASCII letters only, which is
exactly `Char.toLower`; `str.split(sep)` and `os.path.basename` are
modelled on the character list of the string. -/

/-- Python 2 `s.lower()`: ASCII-only lowercasing of every character. -/
def pyLowerStr (s : String) : String := String.mk (s.toList.map Char.toLower)

/-- Python `s.split(sep)` (for a one-character separator) on the character
list of `s`: splitting the empty string gives one empty piece. -/
def pySplit (sep : Char) : List Char → List (List Char)
  | [] => [[]]
  | c :: cs =>
    if c = sep then [] :: pySplit sep cs
    else
      match pySplit sep cs with
      | [] => [[c]]
      | p :: ps => (c :: p) :: ps

/-- Number of slash characters in a string. -/
def countSlash (s : String) : Nat := s.toList.count '/'

/-! ## Message._encoding (lib.py 220-229) and its claim C4 -/

/-- Whether a unicode text (its code points) encodes without loss in the
named codec, modelling Python `text.encode(encoding)` not raising
`UnicodeError`: `us-ascii` accepts code points below 128, `iso-8859-1`
accepts code points below 256, and `utf8` accepts every unicode text. -/
def encodesIn (encoding : String) (text : List Nat) : Bool :=
  if encoding = ASCII then text.all (fun c => c < 128)
  else if encoding = ISO then text.all (fun c => c < 256)
  else if encoding = UTF then true
  else false

/-- The `for encoding in ... : try/except/else break` loop of
`Message._encoding` (lib.py 221-229): the loop variable after the loop is
the first encoding that succeeded, or the last candidate when every
attempt raised (the `continue` of the final iteration still leaves the
loop variable bound to it). -/
def encodingLoop (text : List Nat) : List String → String
  | [] => ""
  | [e] => e
  | e :: e2 :: es => if encodesIn e text then e else encodingLoop text (e2 :: es)

/-- lib.py 220-229 `Message._encoding`. -/
def Message._encoding (text : List Nat) : String := encodingLoop text ENCODINGS

/-! ## _Recipients (lib.py 138-172) and its claim C3 -/

/-- The argument of `_Recipients._make` (lib.py 164-168): either a single
text value (`isinstance(recipients, basestring)`) or a sequence. -/
inductive RecipientsInput (α : Type) where
  | single : α → RecipientsInput α
  | many : List α → RecipientsInput α
deriving DecidableEq

/-- The recipient list an input denotes after the `basestring` test of
lib.py 165-168 wraps a single value into a one-element list. -/
def RecipientsInput.toList {α : Type} : RecipientsInput α → List α
  | .single r => [r]
  | .many rs => rs

/-- The loop of `_Recipients._remove_duplicates` (lib.py 155-162) with its
accumulator `unique_recipients`; `canon` models `unicode(recipient)`, the
canonical text form of a recipient. -/
def Recipients.removeDuplicatesLoop {α : Type} (canon : α → String)
    (unique_recipients : List String) : List α → List String
  | [] => unique_recipients
  | recipient :: rest =>
    if canon recipient ∈ unique_recipients then
      Recipients.removeDuplicatesLoop canon unique_recipients rest
    else
      Recipients.removeDuplicatesLoop canon (unique_recipients ++ [canon recipient]) rest

/-- lib.py 155-162 `_Recipients._remove_duplicates`. -/
def Recipients._remove_duplicates {α : Type} (canon : α → String)
    (recipients : List α) : List String :=
  Recipients.removeDuplicatesLoop canon [] recipients

/-- lib.py 164-172 `_Recipients._make`. -/
def Recipients._make {α : Type} (canon : α → String)
    (recipients : RecipientsInput α) : List String :=
  Recipients._remove_duplicates canon recipients.toList

/-- Modelled from the spec's words, for the refinement in claim C3 only:
keep only the first occurrence of each distinct value, preserving relative
order. -/
def specFirstOccurrences : List String → List String
  | [] => []
  | u :: us => u :: specFirstOccurrences (us.filter (fun v => v ≠ u))
termination_by l => l.length
decreasing_by
  simp only [List.length_cons]
  exact Nat.lt_succ_of_le (List.length_filter_le _ _)

/-! ## Attachment (lib.py 16-119): content type, read modes, MIME part -/

/-- The exceptions `Attachment._handle_mime_content_type` and
`Attachment._make` can raise: the ValueError of lib.py 82 (the spec's
InvalidContentType), the KeyError of lib.py 95 (UnknownReadMode) and an
IOError from `open` (FileNotFound / FileUnreadable). -/
inductive AttachmentError where
  | invalidContentType
  | unknownReadMode
  | fileNotFound
deriving DecidableEq

/-- Whether an `Except` value is a success. -/
def exceptIsOk {ε β : Type} : Except ε β → Bool
  | .ok _ => true
  | .error _ => false

/-- The content-type resolution of lib.py 67-77: an explicit type wins;
otherwise the external guesser's answer, with the legacy alias
`image/x-png` replaced by the canonical `image/png`; otherwise the default
type. `guessed_type` stands for `mimetypes.guess_type(path)[0]`. -/
def resolvedContentType (guessed_type : Option String) (content_type : Option String)
    (default_type : String) : String :=
  match content_type with
  | some t => t
  | none =>
    match guessed_type with
    | some g => if g ≠ "image/x-png" then g else MIME_TYPE_PNG_IMAGE
    | none => default_type

/-- lib.py 66-84 `Attachment._handle_mime_content_type`: resolve the type,
then `str(content_type).lower().split('/')` destructured into exactly two
pieces; any other number of pieces raises the ValueError of lib.py 82. -/
def Attachment._handle_mime_content_type (guessed_type content_type : Option String)
    (default_type : String) : Except AttachmentError (String × String) :=
  match pySplit '/' (pyLowerStr (resolvedContentType guessed_type content_type default_type)).toList with
  | [t, s] => .ok (String.mk t, String.mk s)
  | _ => .error .invalidContentType

/-- The two read functions of lib.py 44-55. -/
inductive ReadFunc where
  | plainRead
  | binaryRead
deriving DecidableEq

/-- lib.py 57-64 `Attachment._read_modes`, as an association list. -/
def Attachment._read_modes : List (String × ReadFunc) :=
  [("plain", .plainRead), ("p", .plainRead), ("r", .plainRead),
   ("binary", .binaryRead), ("bin", .binaryRead), ("b", .binaryRead), ("rb", .binaryRead)]

/-- The dictionary lookup `self._read_modes[str(read_mode).lower()]` of
lib.py 93: `none` is the KeyError branch. -/
def lookupReadMode (read_mode : String) : Option ReadFunc :=
  Attachment._read_modes.lookup (pyLowerStr read_mode)

/-- A MIME object of Python's `email` package, reduced to what the claims
observe: its header list (name, value), its payload bytes, and its child
parts when it is a multipart container. -/
structure MimePart where
  headers : List (String × String)
  payload : List Nat
  children : List MimePart

/-- Python email header names compare ASCII-case-insensitively. -/
def headerEq (a b : String) : Bool := pyLowerStr a == pyLowerStr b

/-- The header name whose uniqueness claim C8 is about. -/
def MIME_VERSION : String := "MIME-Version"

/-- Model of `del part[name]` (lib.py 103, 238): every header with that
(case-insensitive) name is removed. -/
def delHeader (name : String) (p : MimePart) : MimePart :=
  { p with headers := p.headers.filter (fun h => !(headerEq h.1 name)) }

/-- How many headers of the part carry the given name. -/
def countHeader (name : String) (p : MimePart) : Nat :=
  (p.headers.filter (fun h => headerEq h.1 name)).length

/-- Model of `part.add_header(name, value)`: appended to the header list. -/
def addHeader (p : MimePart) (name value : String) : MimePart :=
  { p with headers := p.headers ++ [(name, value)] }

/-- Model of `email.MIMEBase.MIMEBase(type, subtype)`: a fresh part whose
constructor sets `Content-Type` and then `MIME-Version: 1.0`. -/
def mkMIMEBase (type_ subtype : String) : MimePart :=
  { headers := [("Content-Type", type_ ++ "/" ++ subtype), (MIME_VERSION, "1.0")],
    payload := [], children := [] }

/-- Model of `email.Encoders.encode_base64` (lib.py 54): marks the part as
base64-transfer-encoded; the textual base64 rendering of the payload is
abstracted away. -/
def encode_base64 (p : MimePart) : MimePart :=
  addHeader p "Content-Transfer-Encoding" "base64"

/-- lib.py 44-48 `Attachment._read`: read the file at `path` through the
filesystem boundary `fs` and set it as the payload; `none` from `fs` is an
IOError from `open`. -/
def Attachment._read (fs : String → Option (List Nat)) (attachment : MimePart)
    (path : String) : Option MimePart :=
  match fs path with
  | some file_content => some { attachment with payload := file_content }
  | none => none

/-- lib.py 50-55 `Attachment._read_binary`: the binary read additionally
base64-encodes the part. -/
def Attachment._read_binary (fs : String → Option (List Nat)) (attachment : MimePart)
    (path : String) : Option MimePart :=
  match fs path with
  | some file_content => some (encode_base64 { attachment with payload := file_content })
  | none => none

/-- lib.py 86-105 `Attachment._make`: resolve the content type (its
ValueError escapes first), build the `MIMEBase`, look the read mode up
(KeyError when absent), run the read function, add the
`Content-Disposition` header and delete the per-part `MIME-Version`
header. `fs` is the filesystem boundary and `guesser` the external
`mimetypes.guess_type`. -/
def Attachment._make (fs : String → Option (List Nat)) (guesser : String → Option String)
    (path read_mode : String) (type_ : Option String) (default_type basename : String) :
    Except AttachmentError MimePart :=
  match Attachment._handle_mime_content_type (guesser path) type_ default_type with
  | .error e => .error e
  | .ok (t, s) =>
    let attachment := mkMIMEBase t s
    match lookupReadMode read_mode with
    | none => .error .unknownReadMode
    | some read_func =>
      let readResult :=
        match read_func with
        | .plainRead => Attachment._read fs attachment path
        | .binaryRead => Attachment._read_binary fs attachment path
      match readResult with
      | none => .error .fileNotFound
      | some part =>
        .ok (delHeader MIME_VERSION
              (addHeader part "Content-Disposition" ("attachment; filename=" ++ basename)))

/-! ## Message building (lib.py 174-285) for claim C8 -/

/-- lib.py 107-111 `Attachment.basename`: the last path segment (the
US-ASCII encoding step is the identity on representable names and its
failure is outside the claims). -/
def Attachment.basename (path : String) : String :=
  String.mk ((pySplit '/' path.toList).getLastD [])

/-- The constructor fields of an `Attachment` (lib.py 31-36). -/
structure AttachmentFields where
  path : String
  read_mode : String
  type_ : Option String
  default_type : String

/-- lib.py 113-119 `Attachment.make` on an attachment's stored fields. -/
def Attachment.makeFields (fs : String → Option (List Nat)) (guesser : String → Option String)
    (a : AttachmentFields) : Except AttachmentError MimePart :=
  Attachment._make fs guesser a.path a.read_mode a.type_ a.default_type
    (Attachment.basename a.path)

/-- Model of `email.MIMEText.MIMEText(text, charset)` (lib.py 233-235): a
text part whose constructor sets the charset-bearing `Content-Type` and a
`MIME-Version` header. -/
def mkMIMEText (payload : List Nat) (charset : String) : MimePart :=
  { headers := [("Content-Type", "text/plain; charset=" ++ charset), (MIME_VERSION, "1.0")],
    payload := payload, children := [] }

/-- lib.py 231-240 `Message._as_mime_text`: the body part, built with the
encoding chosen by `Message._encoding`, its `MIME-Version` header deleted
(lib.py 238). -/
def Message._as_mime_text (text : List Nat) : MimePart :=
  delHeader MIME_VERSION (mkMIMEText text (Message._encoding text))

/-- The `attachments` argument of `Message` (lib.py 248-255): a single
attachment or an iterable of attachments. -/
inductive AttachmentsInput where
  | single : AttachmentFields → AttachmentsInput
  | many : List AttachmentFields → AttachmentsInput

/-- The list the `attachments` argument denotes after lib.py 248-255. -/
def AttachmentsInput.toList : AttachmentsInput → List AttachmentFields
  | .single a => [a]
  | .many l => l

/-- The `for attachment in attachments : message.attach(attachment.make())`
loop of lib.py 267-275: each attachment is built in order and the first
failure escapes. -/
def attachLoop (fs : String → Option (List Nat)) (guesser : String → Option String) :
    List AttachmentFields → Except AttachmentError (List MimePart)
  | [] => .ok []
  | a :: rest =>
    match Attachment.makeFields fs guesser a with
    | .error e => .error e
    | .ok p =>
      match attachLoop fs guesser rest with
      | .error e => .error e
      | .ok ps => .ok (p :: ps)

/-- lib.py 242-277 `Message._make`: one `MIMEMultipart` container (whose
constructor sets `Content-Type` and `MIME-Version`), the From/To/Date/
Subject headers (To is the delimiter-joined recipient set of lib.py
144-147, Date comes from the external clock, Subject's iso-8859-1 header
encoding is abstracted), then the body part and every attachment part as
children. Attachments here are `AttachmentFields`, so the duck-typing
check of lib.py 267-273 is satisfied by construction. -/
def Message._make (fs : String → Option (List Nat)) (guesser : String → Option String)
    (from_ : String) (to_ : RecipientsInput String) (subject : String) (body : List Nat)
    (attachments : AttachmentsInput) (date : String) : Except AttachmentError MimePart :=
  match attachLoop fs guesser attachments.toList with
  | .error e => .error e
  | .ok parts =>
    .ok { headers := [("Content-Type", "multipart/mixed"), (MIME_VERSION, "1.0"),
                      ("From", from_),
                      ("To", String.intercalate ", " (Recipients._make (fun s => s) to_)),
                      ("Date", date),
                      ("Subject", subject)],
          payload := [],
          children := Message._as_mime_text body :: parts }

/-! ## _Hist (lib.py 287-313) -/

/-- The message input of `EmailServer.send` (lib.py 416-419): a single
`Message` (`hasattr(messages, '_is_message')`) or an iterable of them. -/
inductive MessagesInput (μ : Type) where
  | single : μ → MessagesInput μ
  | many : List μ → MessagesInput μ
deriving DecidableEq

/-- The message list the argument denotes after lib.py 416-419. -/
def MessagesInput.toList {μ : Type} : MessagesInput μ → List μ
  | .single m => [m]
  | .many l => l

/-- A `Message` as the delivery layer observes it: its `from_` field, its
`to` field (fed to `_Recipients` at lib.py 389), and `unicode(message)`,
the wire-ready serialization of lib.py 390, abstracted to a stored text
value (its construction is verified separately via `Message._make`). -/
structure MsgData where
  from_ : String
  to_ : RecipientsInput String
  literal : String
deriving DecidableEq

/-- The tuple recorded per delivery at lib.py 397-398: (message, from,
recipient list, wire text, per-recipient error map, timestamp). -/
structure DeliveryRecord where
  message : MsgData
  from_ : String
  to_ : List String
  literal : String
  errors : List (String × String)
  timestamp : String
deriving DecidableEq

/-- lib.py 287-313 `_Hist`: the recording flag and the `_past` list. -/
structure Hist where
  is_recording : Bool
  past : List DeliveryRecord
deriving DecidableEq

/-- lib.py 290-293 `_Hist.__init__`. -/
def Hist.init (record : Bool) : Hist := { is_recording := record, past := [] }

/-- lib.py 298-301 `_Hist.set_recording`. -/
def Hist.set_recording (h : Hist) (should_record : Bool) : Hist :=
  { h with is_recording := should_record }

/-- lib.py 308-309 `_Hist.clear`. -/
def Hist.clear (h : Hist) : Hist := { h with past := [] }

/-- lib.py 311-313 `_Hist.add`: append only while recording. -/
def Hist.add (h : Hist) (item : DeliveryRecord) : Hist :=
  if h.is_recording then { h with past := h.past ++ [item] } else h

/-! ## EmailServer (lib.py 315-424) -/

/-- A Python 2 value stored in the `host`/`port` fields: a unicode string,
a byte string, or an int, which is all `EmailServer`'s field coercion
distinguishes (lib.py 358-362). -/
inductive PyVal where
  | uni : String → PyVal
  | bytes : String → PyVal
  | int : Nat → PyVal
deriving DecidableEq

/-- The `if isinstance(x, unicode) : x = str(x)` coercion of lib.py
358-362 as a value transformation: a unicode string becomes the byte
string with the same text (`str()` of an ASCII-representable unicode
value); anything else is untouched. -/
def coerceToStr : PyVal → PyVal
  | .uni s => .bytes s
  | v => v

/-- lib.py 331-338 `EmailServer.__init__`: the stored configuration and
the owned history. -/
structure EmailServerState where
  host : PyVal
  port : PyVal
  username : Option PyVal
  password : Option PyVal
  hist : Hist
deriving DecidableEq

/-- What `smtplib.SMTP(host, port)` at lib.py 365 does: succeeds, raises
`socket.gaierror` (name resolution), or raises another socket error such
as a connection refusal, which is not a `gaierror`. -/
inductive ConnectOutcome where
  | ok
  | gaiError
  | refused
deriving DecidableEq

/-- How `_connect_to_server` terminates: with a connection, with the
ValueError of lib.py 367 (the spec's ConnectionError), or by letting an
exception the `except socket.gaierror` clause does not match escape
unwrapped. -/
inductive ConnectResult where
  | connected
  | connectionValueError
  | uncaughtSocketError
deriving DecidableEq

/-- lib.py 355-374 `EmailServer._connect_to_server`: coerce unicode host
and port to byte strings, then attempt `smtplib.SMTP`; only
`socket.gaierror` is caught and converted to the ValueError of lib.py
367, and on success the session continues (starttls, login). Returns the
mutated server state together with the outcome. -/
def EmailServer._connect_to_server (outcome : ConnectOutcome) (s : EmailServerState) :
    EmailServerState × ConnectResult :=
  let s2 := { s with host := coerceToStr s.host, port := coerceToStr s.port }
  match outcome with
  | .ok => (s2, .connected)
  | .gaiError => (s2, .connectionValueError)
  | .refused => (s2, .uncaughtSocketError)

/-- What one `server.login(user, password)` call at lib.py 345/348 does:
succeeds, raises `smtplib.SMTPAuthenticationError`, or raises some other
exception (which no clause of `_log_in` catches). -/
inductive LoginOutcome where
  | ok
  | authError
  | otherError
deriving DecidableEq

/-- How `_log_in` terminates: normally (logged in, or skipped), with the
ValueError of lib.py 350 (the spec's AuthenticationError), or by letting
a non-authentication exception escape. -/
inductive AuthResult where
  | success
  | authenticationError
  | propagated
deriving DecidableEq

/-- lib.py 340-353 `EmailServer._log_in`: when both credentials are
present, try `login(unicode(u), unicode(p))`; on
`SMTPAuthenticationError`, try `login(str(u), str(p))`; on a second
`SMTPAuthenticationError`, raise the ValueError of lib.py 350. `login` is
the transport's reaction to a credential pair, `uniRepr`/`strRepr` model
`unicode()`/`str()` on the stored credential objects. Returns the
attempted credential pairs in order, and the result. -/
def EmailServer._log_in {α : Type} (login : String × String → LoginOutcome)
    (uniRepr strRepr : α → String) (username password : Option α) :
    List (String × String) × AuthResult :=
  match username, password with
  | some u, some p =>
    let firstAttempt := (uniRepr u, uniRepr p)
    (match login firstAttempt with
     | .ok => ([firstAttempt], .success)
     | .otherError => ([firstAttempt], .propagated)
     | .authError =>
       let secondAttempt := (strRepr u, strRepr p)
       match login secondAttempt with
       | .ok => ([firstAttempt, secondAttempt], .success)
       | .otherError => ([firstAttempt, secondAttempt], .propagated)
       | .authError => ([firstAttempt, secondAttempt], .authenticationError))
  | _, _ => ([], .success)

/-- What `server.sendmail(from, to, literal)` at lib.py 393 does for one
message: returns the per-recipient rejection dictionary, or raises
`smtplib.SMTPSenderRefused` (re-raised at lib.py 394-395). -/
inductive SendOutcome where
  | ok : List (String × String) → SendOutcome
  | senderRefused
deriving DecidableEq

/-- The per-recipient error map of a submission outcome (empty map on the
refusal branch, unused there). -/
def SendOutcome.errors : SendOutcome → List (String × String)
  | .ok e => e
  | .senderRefused => []

/-- The history tuple built at lib.py 397-398 for a message whose
submission returned `errors` at timestamp `now`. -/
def mkRecord (now : String) (m : MsgData) (errors : List (String × String)) :
    DeliveryRecord :=
  { message := m, from_ := m.from_, to_ := Recipients._make (fun s => s) m.to_,
    literal := m.literal, errors := errors, timestamp := now }

/-- The `for message in messages` loop of lib.py 421-422 over
`_send_individual_message` (lib.py 376-399): each message in turn is
submitted via `submit`; on success, the record is added to the history;
on `SMTPSenderRefused` the exception re-raises out of the loop, so the
remaining messages are not reached. Returns the final history, the
messages actually submitted to the transport, and whether the loop was
aborted by a refusal. -/
def sendLoop (submit : MsgData → SendOutcome) (now : String) (hist : Hist) :
    List MsgData → Hist × List MsgData × Bool
  | [] => (hist, [], false)
  | m :: rest =>
    match submit m with
    | .senderRefused => (hist, [m], true)
    | .ok errors =>
      let hist2 := hist.add (mkRecord now m errors)
      let out := sendLoop submit now hist2 rest
      (out.1, m :: out.2.1, out.2.2)

/-- The observable outcome of one `EmailServer.send` call. -/
structure SendResult where
  state : EmailServerState
  submitted : List MsgData
  aborted : Bool
  connectionClosed : Bool
deriving DecidableEq

/-- lib.py 410-424 `EmailServer.send`, with the connection itself
succeeding: `_connect_to_server` (which coerces the host/port fields),
the message loop, then `server.quit()` at lib.py 424 — a statement that
is only reached when no exception escapes the loop, so the connection is
closed exactly when the batch was not aborted by a sender refusal. -/
def EmailServer.send (submit : MsgData → SendOutcome) (now : String)
    (s : EmailServerState) (messages : MessagesInput MsgData) : SendResult :=
  let s2 := (EmailServer._connect_to_server .ok s).1
  let out := sendLoop submit now s2.hist messages.toList
  { state := { s2 with hist := out.1 },
    submitted := out.2.1,
    aborted := out.2.2,
    connectionClosed := !out.2.2 }

/-- lib.py 401-408 `EmailServer._test`: connect then quit; only the state
effect on the server object is observable here. -/
def EmailServer._test (s : EmailServerState) : EmailServerState :=
  (EmailServer._connect_to_server .ok s).1

/-! ## Concrete fixtures used by witnesses, counterexamples and evaluations -/

/-- First message of the concrete batches. -/
def msgA : MsgData :=
  { from_ := "alice@example.com", to_ := .single "r@example.com", literal := "wire-a" }

/-- Second message of the concrete batches. -/
def msgB : MsgData :=
  { from_ := "bob@example.com", to_ := .single "r@example.com", literal := "wire-b" }

/-- Third message of the concrete batches. -/
def msgC : MsgData :=
  { from_ := "carol@example.com", to_ := .single "r@example.com", literal := "wire-c" }

/-- A transport that refuses the sender of the second message and accepts
the others with no per-recipient rejections. -/
def submitRefuseB (m : MsgData) : SendOutcome :=
  if m = msgB then .senderRefused else .ok []

/-- A transport that accepts every message with no rejections. -/
def submitAllOk (_ : MsgData) : SendOutcome := .ok []

/-- A server whose history recording is enabled. -/
def serverRec : EmailServerState :=
  { host := .bytes "smtp.example.com", port := .int 587, username := none,
    password := none, hist := Hist.init true }

/-- A filesystem with the same two-byte content behind every path. -/
def fsC8 : String → Option (List Nat) := fun _ => some [104, 105]

/-- A guesser that answers image/png for every path. -/
def guesserC8 : String → Option String := fun _ => some "image/png"

/-- A plain-text attachment fixture. -/
def attPlain : AttachmentFields :=
  { path := "docs/a.txt", read_mode := "plain", type_ := none, default_type := MIME_TYPE_TEXT }

/-- A binary attachment fixture. -/
def attBinary : AttachmentFields :=
  { path := "img/b.png", read_mode := "rb", type_ := none, default_type := MIME_TYPE_TEXT }

/-- An empty MIME part, only used as a default. -/
def emptyPart : MimePart := { headers := [], payload := [], children := [] }

/-- The document built by the two-attachment fixture message. -/
def docC8 : MimePart :=
  match Message._make fsC8 guesserC8 "alice@example.com" (.single "r@example.com") "hello"
      [72, 105] (.many [attPlain, attBinary]) "Sun, 12 Oct 2026 00:00:00 -0000" with
  | .ok d => d
  | .error _ => emptyPart

/-! ## Helper lemmas -/

theorem encodesIn_ASCII (text : List Nat) :
    encodesIn ASCII text = text.all (fun c => c < 128) := by
  simp [encodesIn]

theorem encodesIn_ISO (text : List Nat) :
    encodesIn ISO text = text.all (fun c => c < 256) := by
  rw [encodesIn, if_neg (by decide), if_pos rfl]

theorem encodesIn_UTF (text : List Nat) : encodesIn UTF text = true := by
  rw [encodesIn, if_neg (by decide), if_neg (by decide), if_pos rfl]

theorem specFirstOccurrences_cons (u : String) (us : List String) :
    specFirstOccurrences (u :: us) =
      u :: specFirstOccurrences (us.filter (fun v => v ≠ u)) := by
  rw [specFirstOccurrences]

theorem mem_specFirstOccurrences (l : List String) (v : String) :
    v ∈ specFirstOccurrences l ↔ v ∈ l := by
  induction l using specFirstOccurrences.induct with
  | case1 => simp [specFirstOccurrences]
  | case2 u us ih =>
    rw [specFirstOccurrences_cons]
    by_cases hv : v = u
    · subst hv; simp
    · simp only [List.mem_cons, hv, false_or, ih, List.mem_filter]
      constructor
      · rintro ⟨h, _⟩
        exact h
      · intro h
        exact ⟨h, by simpa using hv⟩

theorem specFirstOccurrences_nodup (l : List String) :
    (specFirstOccurrences l).Nodup := by
  induction l using specFirstOccurrences.induct with
  | case1 => simp [specFirstOccurrences]
  | case2 u us ih =>
    rw [specFirstOccurrences_cons]
    refine List.nodup_cons.2 ⟨?_, ih⟩
    rw [mem_specFirstOccurrences]
    simp [List.mem_filter]

theorem filter_notMem_append (u : String) (acc l : List String) :
    l.filter (fun v => decide (v ∉ acc ++ [u])) =
      (l.filter (fun v => decide (v ∉ acc))).filter (fun v => v ≠ u) := by
  rw [List.filter_filter]
  apply List.filter_congr
  intro x _
  by_cases h1 : x ∈ acc <;> by_cases h2 : x = u <;>
    simp [List.mem_append, h1, h2]

theorem removeDuplicatesLoop_eq {α : Type} (canon : α → String) (rs : List α) :
    ∀ acc : List String,
      Recipients.removeDuplicatesLoop canon acc rs =
        acc ++ specFirstOccurrences ((rs.map canon).filter (fun v => decide (v ∉ acc))) := by
  induction rs with
  | nil =>
    intro acc
    simp [Recipients.removeDuplicatesLoop, specFirstOccurrences]
  | cons r rest ih =>
    intro acc
    rw [Recipients.removeDuplicatesLoop]
    by_cases hmem : canon r ∈ acc
    · rw [if_pos hmem, ih]
      rw [List.map_cons, List.filter_cons]
      simp [hmem]
    · rw [if_neg hmem, ih]
      rw [List.map_cons, List.filter_cons]
      have hd : decide (canon r ∉ acc) = true := by simpa using hmem
      simp only [hd, if_true]
      rw [specFirstOccurrences_cons, filter_notMem_append]
      simp [List.append_assoc]

/-! ## Claim theorems: C4 and C3 -/

/-- C4: `Message._encoding` tries the candidate encodings in the fixed
order us-ascii, iso-8859-1, utf-8 and returns the first in which the text
encodes without loss: pure-ASCII text (all code points below 128) yields
us-ascii, text representable in iso-8859-1 (all code points below 256)
but not ASCII yields iso-8859-1, and all other text yields utf-8; the
returned encoding always encodes the text without loss. -/
theorem c4_chooseBodyEncoding (text : List Nat) :
    Message._encoding text =
      (if text.all (fun c => c < 128) then ASCII
       else if text.all (fun c => c < 256) then ISO
       else UTF) ∧
    encodesIn (Message._encoding text) text = true := by
  have h : Message._encoding text =
      (if text.all (fun c => c < 128) then ASCII
       else if text.all (fun c => c < 256) then ISO
       else UTF) := by
    rw [Message._encoding]
    show encodingLoop text (ASCII :: ISO :: [UTF]) = _
    rw [encodingLoop]
    rw [show encodingLoop text (ISO :: [UTF]) =
          if encodesIn ISO text then ISO else encodingLoop text [UTF] from rfl]
    rw [show encodingLoop text [UTF] = UTF from rfl]
    rw [encodesIn_ASCII, encodesIn_ISO]
  refine ⟨h, ?_⟩
  rw [h]
  by_cases h1 : text.all (fun c => c < 128)
  · rw [if_pos h1, encodesIn_ASCII, h1]
  · rw [if_neg h1]
    by_cases h2 : text.all (fun c => c < 256)
    · rw [if_pos h2, encodesIn_ISO, h2]
    · rw [if_neg h2, encodesIn_UTF]

/-- C3: for every recipient input — a single value, or any sequence in
any order with any duplicates — the recipient sequence built by
`_Recipients._make` is exactly the canonical values of the input with
only the first occurrence of each distinct value kept in relative order
(`specFirstOccurrences`); hence it holds each distinct canonical value
exactly once (`Nodup` plus the membership equivalence). -/
theorem c3_recipient_dedup {α : Type} (canon : α → String) (inp : RecipientsInput α) :
    Recipients._make canon inp = specFirstOccurrences (inp.toList.map canon) ∧
    (Recipients._make canon inp).Nodup ∧
    (∀ v, v ∈ Recipients._make canon inp ↔ v ∈ inp.toList.map canon) := by
  have h : Recipients._make canon inp = specFirstOccurrences (inp.toList.map canon) := by
    rw [Recipients._make, Recipients._remove_duplicates, removeDuplicatesLoop_eq]
    simp
  exact ⟨h, h ▸ specFirstOccurrences_nodup _,
    fun v => h ▸ mem_specFirstOccurrences (inp.toList.map canon) v⟩

/-! ## Lemmas for claim C5: splitting and ASCII lowercasing -/

theorem toNat_ofNat_valid (n : Nat) (h : n.isValidChar) : (Char.ofNat n).toNat = n := by
  rw [Char.ofNat, dif_pos h]
  simp [Char.ofNatAux, Char.toNat, UInt32.toNat]

theorem toLower_eq_slash_iff (c : Char) : Char.toLower c = '/' ↔ c = '/' := by
  constructor
  · intro h
    by_cases hr : c.toNat ≥ 65 ∧ c.toNat ≤ 90
    · exfalso
      have h2 : Char.ofNat (c.toNat + 32) = '/' := by
        simpa [Char.toLower, hr] using h
      have hv : (c.toNat + 32).isValidChar := by
        left
        show c.toNat + 32 < 0xd800
        omega
      have h3 := toNat_ofNat_valid _ hv
      rw [h2] at h3
      have h47 : ('/' : Char).toNat = 47 := by decide
      omega
    · simpa [Char.toLower, hr] using h
  · intro h
    subst h
    decide

theorem count_slash_map_toLower (l : List Char) :
    (l.map Char.toLower).count '/' = l.count '/' := by
  induction l with
  | nil => rfl
  | cons c cs ih =>
    simp only [List.map_cons, List.count_cons, ih]
    congr 1
    by_cases hc : c = '/'
    · subst hc; decide
    · have h2 : ¬ Char.toLower c = '/' := fun h => hc ((toLower_eq_slash_iff c).1 h)
      simp [hc, h2]

theorem countSlash_pyLowerStr (s : String) :
    countSlash (pyLowerStr s) = countSlash s := by
  rw [countSlash, countSlash, pyLowerStr]
  exact count_slash_map_toLower s.toList

theorem pySplit_ne_nil (sep : Char) (l : List Char) : pySplit sep l ≠ [] := by
  cases l with
  | nil => simp [pySplit]
  | cons c cs =>
    rw [pySplit]
    by_cases h : c = sep
    · simp [h]
    · rcases hr : pySplit sep cs with _ | ⟨p, ps⟩ <;> simp [h, hr]

theorem length_pySplit (sep : Char) (l : List Char) :
    (pySplit sep l).length = l.count sep + 1 := by
  induction l with
  | nil => rfl
  | cons c cs ih =>
    rw [pySplit]
    by_cases h : c = sep
    · subst h
      simp [List.count_cons, ih]
    · rcases hr : pySplit sep cs with _ | ⟨p, ps⟩
      · exact absurd hr (pySplit_ne_nil sep cs)
      · rw [if_neg h]
        rw [hr] at ih
        simp only [List.length_cons] at ih ⊢
        simp [List.count_cons, h, ih]

theorem exceptIsOk_handle (guessed_type content_type : Option String) (default_type : String) :
    exceptIsOk (Attachment._handle_mime_content_type guessed_type content_type default_type) = true ↔
      (pySplit '/' (pyLowerStr (resolvedContentType guessed_type content_type default_type)).toList).length = 2 := by
  rw [Attachment._handle_mime_content_type]
  rcases h : pySplit '/' (pyLowerStr (resolvedContentType guessed_type content_type default_type)).toList
    with _ | ⟨a, _ | ⟨b, _ | ⟨c, l⟩⟩⟩ <;>
    simp [exceptIsOk]

/-- C5: `resolveContentType` returns the explicit type when one is given,
otherwise the guessed type with the legacy alias `image/x-png` normalized
to `image/png`, otherwise the default type; and it fails with the
invalid-content-type error exactly when the resolved type string does not
contain exactly one slash-separator. -/
theorem c5_resolveContentType (guessed_type content_type : Option String) (default_type : String) :
    resolvedContentType guessed_type content_type default_type =
      (match content_type with
       | some t => t
       | none =>
         match guessed_type with
         | some g => if g = "image/x-png" then MIME_TYPE_PNG_IMAGE else g
         | none => default_type) ∧
    (exceptIsOk (Attachment._handle_mime_content_type guessed_type content_type default_type) = true ↔
      countSlash (resolvedContentType guessed_type content_type default_type) = 1) := by
  constructor
  · rw [resolvedContentType.eq_def]
    rcases content_type with _ | t
    · rcases guessed_type with _ | g
      · rfl
      · by_cases hg : g = "image/x-png" <;> simp [hg]
    · rfl
  · rw [exceptIsOk_handle, length_pySplit]
    have hc : ((pyLowerStr (resolvedContentType guessed_type content_type default_type)).toList).count '/' =
        countSlash (resolvedContentType guessed_type content_type default_type) := by
      rw [← countSlash_pyLowerStr, countSlash]
    rw [hc]
    omega

/-! ## Claim C6: read-mode errors of Attachment build -/

theorem handle_error_invalid (guessed_type content_type : Option String) (default_type : String)
    (e : AttachmentError)
    (h : Attachment._handle_mime_content_type guessed_type content_type default_type = .error e) :
    e = .invalidContentType := by
  rw [Attachment._handle_mime_content_type] at h
  split at h
  · exact Except.noConfusion h
  · injection h with h2
    exact h2.symm

/-- C6 counterexample: with the unrecognized read mode `"x"` and the
explicit content type `"text"` (which has no slash), `Attachment._make`
fails with the invalid-content-type ValueError of lib.py 82, not with the
unknown-read-mode KeyError — so an unrecognized read mode does not always
produce the UnknownReadMode failure, refuting the claimed equivalence. -/
theorem c6_counterexample :
    lookupReadMode "x" = none ∧
    Attachment._make (fun _ => none) (fun _ => none) "a.txt" "x" (some "text")
      MIME_TYPE_TEXT "a.txt" = .error .invalidContentType ∧
    Attachment._make (fun _ => none) (fun _ => none) "a.txt" "x" (some "text")
      MIME_TYPE_TEXT "a.txt" ≠ .error .unknownReadMode := by
  refine ⟨rfl, rfl, ?_⟩
  intro h
  have h2 : Attachment._make (fun _ => none) (fun _ => none) "a.txt" "x" (some "text")
      MIME_TYPE_TEXT "a.txt" = .error .invalidContentType := rfl
  rw [h2] at h
  injection h with h3
  exact absurd h3 (by decide)

/-- C6 (amended): `Attachment._make` fails with the unknown-read-mode
error exactly when the read mode is not one of the recognized mode
spellings AND the content type resolves (content-type validation comes
first and its failure takes precedence); moreover, with an unrecognized
read mode the result never depends on the filesystem — no file is read. -/
theorem c6_unknownReadMode (fs fs2 : String → Option (List Nat))
    (guesser : String → Option String) (path read_mode : String) (type_ : Option String)
    (default_type basename : String) :
    (Attachment._make fs guesser path read_mode type_ default_type basename =
        .error .unknownReadMode ↔
      lookupReadMode read_mode = none ∧
        exceptIsOk (Attachment._handle_mime_content_type (guesser path) type_ default_type)
          = true) ∧
    (lookupReadMode read_mode = none →
      Attachment._make fs guesser path read_mode type_ default_type basename =
        Attachment._make fs2 guesser path read_mode type_ default_type basename) := by
  rcases hct : Attachment._handle_mime_content_type (guesser path) type_ default_type
      with e | ⟨t, s⟩
  · have he := handle_error_invalid _ _ _ _ hct
    subst he
    constructor
    · rw [Attachment._make, hct]
      simp [exceptIsOk]
    · intro _
      rw [Attachment._make, hct, Attachment._make, hct]
  · rcases hl : lookupReadMode read_mode with _ | rf
    · constructor
      · rw [Attachment._make, hct, hl]
        simp [exceptIsOk, hct]
      · intro _
        rw [Attachment._make, hct, hl, Attachment._make, hct, hl]
    · have hm : ∀ g : String → Option (List Nat),
          Attachment._make g guesser path read_mode type_ default_type basename =
            (match (match rf with
                    | .plainRead => Attachment._read g (mkMIMEBase t s) path
                    | .binaryRead => Attachment._read_binary g (mkMIMEBase t s) path) with
             | none => .error .fileNotFound
             | some part => .ok (delHeader MIME_VERSION (addHeader part "Content-Disposition"
                 ("attachment; filename=" ++ basename)))) := by
        intro g
        rw [Attachment._make, hct, hl]
      constructor
      · rw [hm fs]
        constructor
        · intro h
          exfalso
          split at h
          · exact absurd (Except.error.inj h) (by decide)
          · exact Except.noConfusion h
        · rintro ⟨h1, _⟩
          exact Option.noConfusion h1
      · intro hnone
        exact Option.noConfusion hnone

/-- C6 amended-claim witness: at the concrete unrecognized mode `"x"` with
a valid content type, the build result is independent of the filesystem. -/
theorem c6_unknownReadMode_witness :
    Attachment._make (fun _ => some [0]) (fun _ => none) "a.txt" "x" (some MIME_TYPE_TEXT)
        MIME_TYPE_TEXT "a.txt" =
      Attachment._make (fun _ => none) (fun _ => none) "a.txt" "x" (some MIME_TYPE_TEXT)
        MIME_TYPE_TEXT "a.txt" :=
  (c6_unknownReadMode (fun _ => some [0]) (fun _ => none) (fun _ => none) "a.txt" "x"
    (some MIME_TYPE_TEXT) MIME_TYPE_TEXT "a.txt").2 rfl

/-! ## Claim C7: connect-failure wrapping -/

/-- C7 counterexample: when `smtplib.SMTP` raises a connection refusal,
`_connect_to_server` does not produce its ConnectionError (the ValueError
of lib.py 367) — the refusal escapes as the uncaught socket error, because
the `except` clause at lib.py 366 matches `socket.gaierror` only. This
refutes the claim that a refusal is also wrapped. -/
theorem c7_counterexample :
    (EmailServer._connect_to_server .refused serverRec).2 = .uncaughtSocketError ∧
    (EmailServer._connect_to_server .refused serverRec).2 ≠ .connectionValueError := by
  exact ⟨rfl, by decide⟩

/-- C7 (amended): for every server and connection outcome,
`_connect_to_server` fails with its ConnectionError (the ValueError of
lib.py 367) exactly when the underlying failure is a name-resolution
error; a connection refusal escapes as the raw uncaught socket error; and
the call succeeds exactly when the transport connection succeeds. -/
theorem c7_connect_error_kinds (outcome : ConnectOutcome) (s : EmailServerState) :
    ((EmailServer._connect_to_server outcome s).2 = .connectionValueError ↔
      outcome = .gaiError) ∧
    ((EmailServer._connect_to_server outcome s).2 = .uncaughtSocketError ↔
      outcome = .refused) ∧
    ((EmailServer._connect_to_server outcome s).2 = .connected ↔ outcome = .ok) := by
  cases outcome <;> simp [EmailServer._connect_to_server]

/-! ## Claim C9: the authentication retry discipline -/

/-- C9: `_log_in` attempts a login exactly when both username and password
are present (no attempt is made when either is absent); when both are
present the attempted credential pairs are exactly `(unicode(u),
unicode(p))` followed — only when the first attempt fails with an
authentication error — by the alternate representation `(str(u), str(p))`;
and the AuthenticationError (the ValueError of lib.py 350) is raised
exactly when both attempts fail with authentication errors. -/
theorem c9_authenticate {α : Type} (login : String × String → LoginOutcome)
    (uniRepr strRepr : α → String) (username password : Option α) :
    ((EmailServer._log_in login uniRepr strRepr username password).1 = [] ↔
      username = none ∨ password = none) ∧
    (∀ u p, username = some u → password = some p →
      (EmailServer._log_in login uniRepr strRepr username password).1 =
        (if login (uniRepr u, uniRepr p) = .authError
         then [(uniRepr u, uniRepr p), (strRepr u, strRepr p)]
         else [(uniRepr u, uniRepr p)]) ∧
      ((EmailServer._log_in login uniRepr strRepr username password).2 =
          .authenticationError ↔
        login (uniRepr u, uniRepr p) = .authError ∧
          login (strRepr u, strRepr p) = .authError)) := by
  constructor
  · rcases username with _ | u <;> rcases password with _ | p <;>
      simp [EmailServer._log_in]
    rcases h1 : login (uniRepr u, uniRepr p) with _ | _ | _ <;>
      rcases h2 : login (strRepr u, strRepr p) with _ | _ | _ <;>
        simp [h1, h2]
  · rintro u p rfl rfl
    rcases h1 : login (uniRepr u, uniRepr p) with _ | _ | _ <;>
      rcases h2 : login (strRepr u, strRepr p) with _ | _ | _ <;>
        simp [EmailServer._log_in, h1, h2]

/-- C9 witness: with both credentials present and a transport rejecting
every credential pair, both representations are attempted and the
AuthenticationError results. -/
theorem c9_authenticate_witness :
    (EmailServer._log_in (fun _ => LoginOutcome.authError) (fun s : String => s)
        (fun s => s) (some "user") (some "pass")).2 = .authenticationError := by
  have h := c9_authenticate (fun _ => LoginOutcome.authError) (fun s : String => s)
    (fun s => s) (some "user") (some "pass")
  exact ((h.2 "user" "pass" rfl rfl).2).2 ⟨rfl, rfl⟩

/-! ## Claim C10: field effects of connecting -/

/-- C10: any `send` and any connectivity test replace the server's stored
host and port fields by their `str()` coercions (a unicode value becomes
its byte-string conversion, via `coerceToStr`, and the replacement
persists in the final state), while `_connect_to_server` leaves the
username, the password and the history object unchanged, whatever the
connection outcome. -/
theorem c10_connect_field_effects (submit : MsgData → SendOutcome) (now : String)
    (s : EmailServerState) (messages : MessagesInput MsgData) :
    (EmailServer.send submit now s messages).state.host = coerceToStr s.host ∧
    (EmailServer.send submit now s messages).state.port = coerceToStr s.port ∧
    (EmailServer._test s).host = coerceToStr s.host ∧
    (EmailServer._test s).port = coerceToStr s.port ∧
    (∀ u, coerceToStr (.uni u) = .bytes u) ∧
    (∀ outcome : ConnectOutcome,
      (EmailServer._connect_to_server outcome s).1.username = s.username ∧
      (EmailServer._connect_to_server outcome s).1.password = s.password ∧
      (EmailServer._connect_to_server outcome s).1.hist = s.hist) := by
  refine ⟨rfl, rfl, rfl, rfl, fun u => rfl, fun outcome => ?_⟩
  cases outcome <;> exact ⟨rfl, rfl, rfl⟩

/-! ## Claims C2 and C1: the send loop and the history -/

theorem sendLoop_no_refusal (submit : MsgData → SendOutcome) (now : String)
    (ms : List MsgData) :
    ∀ hist : Hist, (∀ m ∈ ms, submit m ≠ .senderRefused) →
      sendLoop submit now hist ms =
        ({ is_recording := hist.is_recording,
           past := hist.past ++
             (if hist.is_recording then
               ms.map (fun m => mkRecord now m (submit m).errors) else []) },
         ms, false) := by
  induction ms with
  | nil =>
    intro hist h
    simp [sendLoop]
  | cons m rest ih =>
    intro hist h
    rcases hs : submit m with errors | _
    · have h2 : ∀ m2 ∈ rest, submit m2 ≠ .senderRefused := fun m2 hm =>
        h m2 (List.mem_cons_of_mem _ hm)
      rcases hrec : hist.is_recording with _ | _ <;>
        simp [sendLoop, hs, ih _ h2, Hist.add, SendOutcome.errors, hrec,
          List.append_assoc]
    · exact absurd hs (h m (List.mem_cons_self _ _))

/-- C2: for every server and every batch whose every message the transport
accepts (no sender refusal), `send` leaves the history untouched when
recording is disabled, and when recording is enabled it appends exactly
one record per message, in the batch's input order. -/
theorem c2_history_per_message (submit : MsgData → SendOutcome) (now : String)
    (s : EmailServerState) (messages : MessagesInput MsgData)
    (h : ∀ m ∈ messages.toList, submit m ≠ .senderRefused) :
    (s.hist.is_recording = false →
      (EmailServer.send submit now s messages).state.hist.past = s.hist.past) ∧
    (s.hist.is_recording = true →
      (EmailServer.send submit now s messages).state.hist.past =
        s.hist.past ++ messages.toList.map (fun m => mkRecord now m (submit m).errors)) := by
  have hl := sendLoop_no_refusal submit now messages.toList s.hist h
  constructor <;> intro hrec <;>
    simp [EmailServer.send, EmailServer._connect_to_server, hl, hrec]

/-- C2 witness: a concrete two-message batch, all accepted, on a recording
server appends exactly the two records in input order. -/
theorem c2_history_per_message_witness :
    (EmailServer.send submitAllOk "2026-10-12" serverRec (.many [msgA, msgC])).state.hist.past =
      serverRec.hist.past ++
        ([msgA, msgC].map (fun m => mkRecord "2026-10-12" m (submitAllOk m).errors)) := by
  have h := c2_history_per_message submitAllOk "2026-10-12" serverRec (.many [msgA, msgC])
    (by intro m _; simp [submitAllOk])
  exact h.2 rfl

/-- C1 theorem: evaluation of `send` at the failing input — a batch of
three messages whose second is sender-refused by the transport. After the
call: the first message's record is the only history entry, no record for
the second or third message exists, the third message is never submitted
to the transport, but `connectionClosed` is false: the refusal propagates
past the `server.quit()` of lib.py 424, which is never reached, so the
connection is NOT closed, contradicting the claim's (and the spec's)
closed-connection guarantee. -/
theorem c1_senderRefusal_eval :
    (EmailServer.send submitRefuseB "t0" serverRec (.many [msgA, msgB, msgC])).state.hist.past =
      [mkRecord "t0" msgA []] ∧
    (EmailServer.send submitRefuseB "t0" serverRec (.many [msgA, msgB, msgC])).submitted =
      [msgA, msgB] ∧
    msgC ∉ (EmailServer.send submitRefuseB "t0" serverRec (.many [msgA, msgB, msgC])).submitted ∧
    (EmailServer.send submitRefuseB "t0" serverRec (.many [msgA, msgB, msgC])).aborted = true ∧
    (EmailServer.send submitRefuseB "t0" serverRec (.many [msgA, msgB, msgC])).connectionClosed
      = false := by
  refine ⟨rfl, rfl, ?_, rfl, rfl⟩
  decide

/-! ## Claim C8: single MIME-Version header -/

theorem filter_headerEq_of_delHeader (name : String) (hs : List (String × String)) :
    (hs.filter (fun h => !(headerEq h.1 name))).filter (fun h => headerEq h.1 name) = [] := by
  induction hs with
  | nil => rfl
  | cons x t ih =>
    rw [List.filter_cons]
    by_cases hx : headerEq x.1 name = true
    · simp [hx, ih]
    · simp only [Bool.not_eq_true] at hx
      simp [hx, List.filter_cons, ih]

theorem countHeader_delHeader (name : String) (p : MimePart) :
    countHeader name (delHeader name p) = 0 := by
  rw [countHeader, delHeader]
  simp [filter_headerEq_of_delHeader]

theorem makeFields_no_mime_version (fs : String → Option (List Nat))
    (guesser : String → Option String) (a : AttachmentFields) (p : MimePart)
    (h : Attachment.makeFields fs guesser a = .ok p) :
    countHeader MIME_VERSION p = 0 := by
  unfold Attachment.makeFields Attachment._make at h
  dsimp only at h
  repeat' split at h
  all_goals first
    | exact Except.noConfusion h
    | (injection h with h2
       rw [← h2]
       exact countHeader_delHeader _ _)

theorem attachLoop_no_mime_version (fs : String → Option (List Nat))
    (guesser : String → Option String) (atts : List AttachmentFields)
    (parts : List MimePart) (h : attachLoop fs guesser atts = .ok parts) :
    ∀ c ∈ parts, countHeader MIME_VERSION c = 0 := by
  induction atts generalizing parts with
  | nil =>
    rw [attachLoop] at h
    injection h with h2
    rw [← h2]
    intro c hc
    exact absurd hc (List.not_mem_nil c)
  | cons a rest ih =>
    rw [attachLoop] at h
    split at h
    · exact Except.noConfusion h
    · rename_i p hp
      split at h
      · exact Except.noConfusion h
      · rename_i ps hps
        injection h with h2
        rw [← h2]
        intro c hc
        rcases List.mem_cons.1 hc with hc1 | hc2
        · rw [hc1]
          exact makeFields_no_mime_version fs guesser a p hp
        · exact ih ps hps c hc2

/-- C8: for every message with any number of attachments whose build
succeeds, the built multipart document carries the MIME-Version header
exactly once at the top level, and no child part — neither the text body
part nor any attachment part — carries that header. -/
theorem c8_mime_version_once (fs : String → Option (List Nat))
    (guesser : String → Option String) (from_ : String) (to_ : RecipientsInput String)
    (subject : String) (body : List Nat) (attachments : AttachmentsInput) (date : String)
    (doc : MimePart)
    (h : Message._make fs guesser from_ to_ subject body attachments date = .ok doc) :
    countHeader MIME_VERSION doc = 1 ∧
    ∀ c ∈ doc.children, countHeader MIME_VERSION c = 0 := by
  unfold Message._make at h
  split at h
  · exact Except.noConfusion h
  · rename_i parts hparts
    injection h with h2
    rw [← h2]
    constructor
    · have e1 : headerEq "Content-Type" MIME_VERSION = false := by decide
      have e2 : headerEq MIME_VERSION MIME_VERSION = true := by decide
      have e3 : headerEq "From" MIME_VERSION = false := by decide
      have e4 : headerEq "To" MIME_VERSION = false := by decide
      have e5 : headerEq "Date" MIME_VERSION = false := by decide
      have e6 : headerEq "Subject" MIME_VERSION = false := by decide
      simp [countHeader, List.filter_cons, e1, e2, e3, e4, e5, e6]
    · intro c hc
      rcases List.mem_cons.1 hc with hc1 | hc2
      · rw [hc1, Message._as_mime_text]
        exact countHeader_delHeader _ _
      · exact attachLoop_no_mime_version fs guesser attachments.toList parts hparts c hc2

/-- C8 witness: the concrete two-attachment fixture message builds, and
its document's top level carries the MIME-Version header exactly once. -/
theorem c8_mime_version_once_witness : countHeader MIME_VERSION docC8 = 1 :=
  (c8_mime_version_once fsC8 guesserC8 "alice@example.com" (.single "r@example.com")
    "hello" [72, 105] (.many [attPlain, attBinary]) "Sun, 12 Oct 2026 00:00:00 -0000"
    docC8 (by rfl)).1

end EmailLib
